import Mathlib

/-!
# ReconstructMe Qt: the SDK initialization lifecycle

A shallow embedding of `reme_resource_manager.cpp` and `reme_sdk_initializer.cpp`
(namespace `ReconstructMeGUI`). The two classes are textually identical except for
`open_sensor` (frame-size queries) and for the factory methods, which only
`reme_resource_manager` has.

The ReconstructMe SDK is an external C library. Every SDK call is modelled by what
it gives back to the caller: its return code, the value it leaves in its
out-parameter, and the log callbacks it fires while it runs. These are inputs of
the model (`Sdk`, one record per run of the initialization sequence); the
theorems quantify over all of them.

The manager's fields are the C++ members. Added to the state are two observation
lists, the Qt signals emitted so far and the SDK calls made so far, and two
counters for the tasks handed to the thread pool.

The definitions come first: the embedding of the sources, then the vocabulary of
the statements and sample inputs. The theorems follow.
-/

namespace ReconstructMeGUI

/-! ## Types from the headers -/

/-- The SDK's `reme_error_t`, a C enum. -/
abbrev reme_error_t := Int

/-- The SDK's handle types (`reme_context_t`, `reme_sensor_t`, `reme_volume_t`,
`reme_image_t`, `reme_calibrator_t`, `reme_options_t`, `reme_license_t`) are C ints. -/
abbrev reme_handle_t := Int

/-- Declarations the two source files use but that live in headers outside of them:
`REME_SUCCESS` and the two error constants from `reconstructmesdk/reme.h`, and the
default tags from `settings.h`. They are parameters of the model. -/
structure Headers where
  REME_SUCCESS : reme_error_t → Bool
  REME_ERROR_UNSPECIFIED : reme_error_t
  REME_ERROR_INVALID_LICENSE : reme_error_t
  license_file_default_tag : String
  config_path_default_tag : String
  opencl_device_default_tag : Int
  devcice_id_tag : String

/-- Modelled from the spec: the enum of stage identifiers, declared in the class
headers, which are not among the sources. The sources pass its values `LICENSE`,
`OPENCL` and `SENSOR` to the `initializing` / `initialized` signals. -/
inductive init_t where
  | LICENSE
  | OPENCL
  | SENSOR
  deriving DecidableEq, Repr

/-- The image kinds passed to `reme_sensor_get_image_size`. -/
inductive reme_image_kind where
  | REME_IMAGE_AUX
  | REME_IMAGE_DEPTH
  | REME_IMAGE_VOLUME
  deriving DecidableEq, Repr

/-- A `QSize`; a `QSize*` that may be null is an `Option QSize`. -/
structure QSize where
  width : Int
  height : Int
  deriving DecidableEq, Repr

/-- The user's settings store as the stages read it: each key is present or absent. -/
structure QSettings where
  sensor_path : Option String
  license_file : Option String
  config_path : Option String
  opencl_device : Option Int
  deriving DecidableEq, Repr

/-! ## Observations -/

/-- The Qt signals of the two classes. -/
inductive Signal where
  | log_message (sev : Int) (log : String)
  | initializing_sdk
  | initializing (what : init_t)
  | initialized (what : init_t) (success : Bool)
  | rgb_size (sz : Option QSize)
  | depth_size (sz : Option QSize)
  | phong_size (sz : Option QSize)
  | sdk_initialized (success : Bool)
  deriving DecidableEq, Repr

/-- The SDK functions the two classes call, with the arguments passed. For the
three `create` functions whose handle the manager keeps, the last argument is the
value the call left in the out-parameter. -/
inductive SdkCall where
  | reme_context_destroy (c : reme_handle_t)
  | reme_context_create (c_out : reme_handle_t)
  | reme_context_set_log_callback (c : reme_handle_t)
  | reme_license_create (c : reme_handle_t)
  | reme_license_authenticate (c l : reme_handle_t) (file : String)
  | reme_options_create (c : reme_handle_t)
  | reme_context_bind_compile_options (c o : reme_handle_t)
  | reme_options_load_from_file (c o : reme_handle_t) (path : String)
  | reme_options_set (c o : reme_handle_t) (key value : String)
  | reme_context_compile (c : reme_handle_t)
  | reme_volume_create (c : reme_handle_t) (v_out : reme_handle_t)
  | reme_sensor_create (c : reme_handle_t) (path : String) (s_out : reme_handle_t)
  | reme_sensor_open (c s : reme_handle_t)
  | reme_sensor_bind_capture_options (c s o : reme_handle_t)
  | reme_options_get_bool (c o : reme_handle_t) (key : String)
  | reme_options_get_int (c o : reme_handle_t) (key : String)
  | reme_sensor_get_image_size (c s : reme_handle_t) (kind : reme_image_kind)
  | reme_calibrator_create (c : reme_handle_t)
  | reme_calibrator_destroy (c calib : reme_handle_t)
  | reme_image_create (c : reme_handle_t)
  | reme_image_destroy (c img : reme_handle_t)
  deriving DecidableEq, Repr

/-- What one SDK call gives back besides its out-parameter: the return code and the
log callbacks (severity, message) it fired. -/
structure Reply where
  ret : reme_error_t
  logs : List (Int × String)
  deriving DecidableEq, Repr

/-- A reply together with the value the call leaves in its out-parameter (the old
value, when the call does not write it). -/
structure Out (α : Type) where
  reply : Reply
  out : α
  deriving DecidableEq, Repr

/-- The two classes. -/
inductive Class where
  | reme_resource_manager
  | reme_sdk_initializer
  deriving DecidableEq, Repr

/-! ## The manager -/

/-- The members of `reme_resource_manager` / `reme_sdk_initializer` (`_phong_size`
exists only in the latter), the two observation lists, and the thread pool:
`queued` counts the tasks handed to `QtConcurrent::run` that have not run yet,
`completed` those that have run and whose `finished()` has not been delivered yet. -/
structure Manager where
  _c : reme_handle_t
  _s : reme_handle_t
  _v : reme_handle_t
  _has_sensor : Bool
  _has_compiled_context : Bool
  _has_volume : Bool
  _initializing : Bool
  _rgb_size : Option QSize
  _depth_size : Option QSize
  _phong_size : Option QSize
  signals : List Signal
  calls : List (SdkCall × reme_error_t)
  queued : Nat
  completed : Nat
  deriving DecidableEq, Repr

/-- The Qt statement `emit sig`. -/
def Manager.emit (m : Manager) (sig : Signal) : Manager :=
  { m with signals := m.signals ++ [sig] }

/-- The slot `new_log_message`: forwards one SDK log line as `log_message`. -/
def new_log_message (m : Manager) (sev : Int) (log : String) : Manager :=
  m.emit (.log_message sev log)

/-- The callback `reme_log`, once per log line an SDK call fires. -/
def reme_log (m : Manager) (logs : List (Int × String)) : Manager :=
  logs.foldl (fun m l => new_log_message m l.1 l.2) m

/-- One SDK call: it is recorded with its return code, and its log lines reach
the manager through `reme_log`. -/
def Manager.sdk (m : Manager) (call : SdkCall) (r : Reply) : Manager :=
  reme_log { m with calls := m.calls ++ [(call, r.ret)] } r.logs

/-- The statement `success = success && REME_SUCCESS(call)`: `&&` short-circuits,
so the call is made only when `success` is still true. -/
def andSuccess (hdr : Headers) (success : Bool) (m : Manager)
    (call : Manager → reme_error_t × Manager) : Bool × Manager :=
  if success then
    let r := call m
    (hdr.REME_SUCCESS r.1, r.2)
  else (false, m)

/-- Everything the environment decides during one run of the initialization
sequence: the settings store, and for each SDK call site its reply and
out-parameter value. -/
structure Sdk where
  settings : QSettings
  context_destroy : Out reme_handle_t
  context_create : Out reme_handle_t
  context_set_log_callback : Reply
  license_create : Out reme_handle_t
  license_authenticate : Reply
  options_create : Out reme_handle_t
  context_bind_compile_options : Reply
  options_load_from_file : Reply
  options_set : Reply
  context_compile : Reply
  volume_create : Out reme_handle_t
  sensor_create : Out reme_handle_t
  sensor_open : Reply
  capture_options_create : Out reme_handle_t
  sensor_bind_capture_options : Reply
  get_supports_aux : Out Bool
  get_aux_width : Out Int
  get_aux_height : Out Int
  get_supports_depth : Out Bool
  get_depth_width : Out Int
  get_depth_height : Out Int
  image_size_aux : Out (Int × Int)
  image_size_depth : Out (Int × Int)
  image_size_volume : Out (Int × Int)
  deriving DecidableEq, Repr

/-! ## The constructor and destructor -/

/-- The constructor sets `_c = 0` and `_initializing = false` and leaves the other
members uninitialized: they keep whatever `garbage` holds. Nothing has been
observed yet and no task exists. -/
def construct (garbage : Manager) : Manager :=
  { garbage with _c := 0, _initializing := false, signals := [], calls := [],
                 queued := 0, completed := 0 }

/-- The destructor: `if (_c != 0) reme_context_destroy(&_c);`. -/
def destruct (r : Out reme_handle_t) (m : Manager) : Manager :=
  if m._c ≠ 0 then
    { m.sdk (.reme_context_destroy m._c) r.reply with _c := r.out }
  else m

/-! ## The stages -/

/-- The method `apply_license` (identical in both classes). -/
def apply_license (hdr : Headers) (sdk : Sdk) (m : Manager) : Bool × Manager :=
  -- success = REME_SUCCESS(reme_license_create(_c, &l));
  let m := m.sdk (.reme_license_create m._c) sdk.license_create.reply
  let l := sdk.license_create.out
  let success := hdr.REME_SUCCESS sdk.license_create.reply.ret
  let licence_file := sdk.settings.license_file.getD hdr.license_file_default_tag
  -- reme_error_t error = reme_license_authenticate(_c, l, licence_file)
  let m := m.sdk (.reme_license_authenticate m._c l licence_file) sdk.license_authenticate
  let error := sdk.license_authenticate.ret
  let success :=
    if error = hdr.REME_ERROR_INVALID_LICENSE then false
    else if error = hdr.REME_ERROR_UNSPECIFIED then false
    else success
  (success, m)

/-- The method `compile_context` (identical in both classes). -/
def compile_context (hdr : Headers) (sdk : Sdk) (m : Manager) : Bool × Manager :=
  let success := true
  let o := sdk.options_create.out
  let (success, m) := andSuccess hdr success m fun m =>
    (sdk.options_create.reply.ret, m.sdk (.reme_options_create m._c) sdk.options_create.reply)
  let (success, m) := andSuccess hdr success m fun m =>
    (sdk.context_bind_compile_options.ret,
      m.sdk (.reme_context_bind_compile_options m._c o) sdk.context_bind_compile_options)
  -- load options if config_path already set
  let path := sdk.settings.config_path.getD hdr.config_path_default_tag
  let (success, m) :=
    if path ≠ hdr.config_path_default_tag then
      andSuccess hdr success m fun m =>
        (sdk.options_load_from_file.ret,
          m.sdk (.reme_options_load_from_file m._c o path) sdk.options_load_from_file)
    else (success, m)
  -- apply selected opencl_device
  let device_id := sdk.settings.opencl_device.getD hdr.opencl_device_default_tag
  let (success, m) := andSuccess hdr success m fun m =>
    (sdk.options_set.ret,
      m.sdk (.reme_options_set m._c o hdr.devcice_id_tag (toString device_id)) sdk.options_set)
  -- Compile for OpenCL device using modified options
  let (success, m) := andSuccess hdr success m fun m =>
    (sdk.context_compile.ret, m.sdk (.reme_context_compile m._c) sdk.context_compile)
  let (success, m) :=
    if !m._has_volume then
      let (success, m) := andSuccess hdr success m fun m =>
        (sdk.volume_create.reply.ret,
          { m.sdk (.reme_volume_create m._c sdk.volume_create.out) sdk.volume_create.reply
            with _v := sdk.volume_create.out })
      (success, { m with _has_volume := true })
    else (success, m)
  let m := { m with _has_compiled_context := success }
  (m._has_compiled_context, m)

/-- The method `reme_resource_manager::open_sensor`. The locals `w`, `h` are read
only on the path that has just written them, so the `if (supports_aux)` block and
the following `supports_aux ? new QSize(w, h) : 0` are one conditional here. -/
def reme_resource_manager.open_sensor (hdr : Headers) (sdk : Sdk) (m : Manager) :
    Bool × Manager :=
  let success := true
  -- can not initialize sensor is no compiled context is available
  let success := if !m._has_compiled_context then false else success
  -- create and open a sensor from settings
  let sensor_path := sdk.settings.sensor_path.getD ""
  let (success, m) := andSuccess hdr success m fun m =>
    (sdk.sensor_create.reply.ret,
      { m.sdk (.reme_sensor_create m._c sensor_path sdk.sensor_create.out)
          sdk.sensor_create.reply with _s := sdk.sensor_create.out })
  let (success, m) := andSuccess hdr success m fun m =>
    (sdk.sensor_open.ret, m.sdk (.reme_sensor_open m._c m._s) sdk.sensor_open)
  let m :=
    if success then
      let m := m.sdk (.reme_options_create m._c) sdk.capture_options_create.reply
      let o := sdk.capture_options_create.out
      let m := m.sdk (.reme_sensor_bind_capture_options m._c m._s o)
        sdk.sensor_bind_capture_options
      -- AUXILIARY image
      let m := m.sdk (.reme_options_get_bool m._c o "frame_info.supports_aux")
        sdk.get_supports_aux.reply
      let supports_aux := sdk.get_supports_aux.out
      let (sz, m) :=
        if supports_aux then
          let m := m.sdk (.reme_options_get_int m._c o "frame_info.aux_size.width")
            sdk.get_aux_width.reply
          let w := sdk.get_aux_width.out
          let m := m.sdk (.reme_options_get_int m._c o "frame_info.aux_size.height")
            sdk.get_aux_height.reply
          let h := sdk.get_aux_height.out
          (some (QSize.mk w h), m)
        else (none, m)
      let m := { m with _rgb_size := sz }
      let m := m.emit (.rgb_size m._rgb_size)
      -- DEPTH image
      let m := m.sdk (.reme_options_get_bool m._c o "frame_info.supports_depth")
        sdk.get_supports_depth.reply
      let supports_depth := sdk.get_supports_depth.out
      let (sz, m) :=
        if supports_depth then
          let m := m.sdk (.reme_options_get_int m._c o "frame_info.depth_size.width")
            sdk.get_depth_width.reply
          let w := sdk.get_depth_width.out
          let m := m.sdk (.reme_options_get_int m._c o "frame_info.depth_size.height")
            sdk.get_depth_height.reply
          let h := sdk.get_depth_height.out
          (some (QSize.mk w h), m)
        else (none, m)
      let m := { m with _depth_size := sz }
      m.emit (.depth_size m._depth_size)
    else m
  let m := { m with _has_sensor := success }
  (m._has_sensor, m)

/-- The method `reme_sdk_initializer::open_sensor`. -/
def reme_sdk_initializer.open_sensor (hdr : Headers) (sdk : Sdk) (m : Manager) :
    Bool × Manager :=
  let success := true
  -- can not initialize sensor is no compiled context is available
  let success := if !m._has_compiled_context then false else success
  -- create and open a sensor from settings
  let sensor_path := sdk.settings.sensor_path.getD ""
  let (success, m) := andSuccess hdr success m fun m =>
    (sdk.sensor_create.reply.ret,
      { m.sdk (.reme_sensor_create m._c sensor_path sdk.sensor_create.out)
          sdk.sensor_create.reply with _s := sdk.sensor_create.out })
  let (success, m) := andSuccess hdr success m fun m =>
    (sdk.sensor_open.ret, m.sdk (.reme_sensor_open m._c m._s) sdk.sensor_open)
  let m :=
    if success then
      let m := m.sdk (.reme_sensor_get_image_size m._c m._s .REME_IMAGE_AUX)
        sdk.image_size_aux.reply
      let img_succ := hdr.REME_SUCCESS sdk.image_size_aux.reply.ret
      let m := { m with _rgb_size :=
        if img_succ then some (QSize.mk sdk.image_size_aux.out.1 sdk.image_size_aux.out.2)
        else none }
      let m := m.emit (.rgb_size m._rgb_size)
      let m := m.sdk (.reme_sensor_get_image_size m._c m._s .REME_IMAGE_DEPTH)
        sdk.image_size_depth.reply
      let img_succ := hdr.REME_SUCCESS sdk.image_size_depth.reply.ret
      let m := { m with _depth_size :=
        if img_succ then some (QSize.mk sdk.image_size_depth.out.1 sdk.image_size_depth.out.2)
        else none }
      let m := m.emit (.depth_size m._depth_size)
      let m := m.sdk (.reme_sensor_get_image_size m._c m._s .REME_IMAGE_VOLUME)
        sdk.image_size_volume.reply
      let img_succ := hdr.REME_SUCCESS sdk.image_size_volume.reply.ret
      let m := { m with _phong_size :=
        if img_succ then some (QSize.mk sdk.image_size_volume.out.1 sdk.image_size_volume.out.2)
        else none }
      m.emit (.phong_size m._phong_size)
    else m
  let m := { m with _has_sensor := success }
  (m._has_sensor, m)

/-- The method `open_sensor` of class `k`. -/
def open_sensor (k : Class) (hdr : Headers) (sdk : Sdk) (m : Manager) : Bool × Manager :=
  match k with
  | .reme_resource_manager => reme_resource_manager.open_sensor hdr sdk m
  | .reme_sdk_initializer => reme_sdk_initializer.open_sensor hdr sdk m

/-! ## The initialization sequence

The method `_initialize` is identical in both classes. It is cut at the three
stage calls, so that the state in which each stage is entered has a name. -/

/-- The sequence from its first line through `emit initializing(LICENSE)`: the
state in which `apply_license` is entered. -/
def enter_license (sdk : Sdk) (m : Manager) : Manager :=
  let m := { m with _has_sensor := false }
  let m := { m with _has_compiled_context := false }
  let m := { m with _has_volume := false }
  let m := m.emit .initializing_sdk
  let m :=
    if m._c ≠ 0 then
      { m.sdk (.reme_context_destroy m._c) sdk.context_destroy.reply
        with _c := sdk.context_destroy.out }
    else m
  let m := { m.sdk (.reme_context_create sdk.context_create.out) sdk.context_create.reply
             with _c := sdk.context_create.out }
  let m := m.sdk (.reme_context_set_log_callback m._c) sdk.context_set_log_callback
  m.emit (.initializing .LICENSE)

/-- Through `emit initializing(OPENCL)`: the state in which `compile_context` is
entered. -/
def enter_opencl (hdr : Headers) (sdk : Sdk) (m : Manager) : Manager :=
  let r := apply_license hdr sdk (enter_license sdk m)
  let success := r.1
  let m := r.2.emit (.initialized .LICENSE success)
  m.emit (.initializing .OPENCL)

/-- Through `emit initializing(SENSOR)`: the state in which `open_sensor` is
entered. -/
def enter_sensor (hdr : Headers) (sdk : Sdk) (m : Manager) : Manager :=
  let r := compile_context hdr sdk (enter_opencl hdr sdk m)
  let success := r.1
  let m := r.2.emit (.initialized .OPENCL success)
  m.emit (.initializing .SENSOR)

/-- The method `_initialize`, the body of the background task. -/
def _initialize (k : Class) (hdr : Headers) (sdk : Sdk) (m : Manager) : Manager :=
  let r := open_sensor k hdr sdk (enter_sensor hdr sdk m)
  let success := r.1
  let m := r.2.emit (.initialized .SENSOR success)
  let success := m._has_compiled_context && m._has_sensor && m._has_volume
  m.emit (.sdk_initialized success)

/-- Successive runs of the initialization sequence on one manager, one `Sdk`
record per run. -/
def runs (k : Class) (hdr : Headers) (sdks : List Sdk) (m : Manager) : Manager :=
  sdks.foldl (fun m sdk => _initialize k hdr sdk m) m

/-! ## Starting and finishing the task -/

/-- The method `initialize()`. `QtConcurrent::run(_init, this)` hands one task to
the thread pool. -/
def Manager.initialize (m : Manager) : Manager :=
  if m._initializing then m
  else
    let m := { m with _initializing := true }
    { m with queued := m.queued + 1 }

/-- The slot `finished_initialize()`. -/
def finished_initialize (m : Manager) : Manager :=
  { m with _initializing := false }

/-- What can happen to a manager: a caller invokes `initialize()`; the thread
pool runs a queued task, whose body is `_initialize`; the future watcher delivers
`finished()` of a task that has run, which invokes the slot `finished_initialize()`. -/
inductive Event where
  | initialize_called
  | task_runs (sdk : Sdk)
  | task_finished

/-- One step; `none` when the event cannot happen in `m` (no task to run, no
completion to deliver). -/
def step (k : Class) (hdr : Headers) (m : Manager) : Event → Option Manager
  | .initialize_called => some ( Manager.initialize m)
  | .task_runs sdk =>
    if 0 < m.queued then
      some { ( _initialize k hdr sdk m) with queued := m.queued - 1,
                                             completed := m.completed + 1 }
    else none
  | .task_finished =>
    if 0 < m.completed then
      some ( finished_initialize { m with completed := m.completed - 1 })
    else none

/-- A sequence of steps from `m`; `none` when one of them cannot happen. -/
def steps (k : Class) (hdr : Headers) (m : Manager) : List Event → Option Manager
  | [] => some m
  | e :: es => (step k hdr m e).bind fun m => steps k hdr m es

/-- The initialization tasks in flight: started, completion not yet delivered. -/
def in_flight (m : Manager) : Nat := m.queued + m.completed

/-! ## The factory methods of `reme_resource_manager` -/

/-- The method `new_calibrator()`; `r` is what `reme_calibrator_create` gives back. -/
def new_calibrator (hdr : Headers) (r : Out reme_handle_t) (m : Manager) :
    reme_handle_t × Manager :=
  if m._has_compiled_context && m._has_sensor then
    let m := m.sdk (.reme_calibrator_create m._c) r.reply
    let calib := r.out
    (calib, m)
  else
    (hdr.REME_ERROR_UNSPECIFIED, m)

/-- The method `new_image()`; `r` is what `reme_image_create` gives back. -/
def new_image (hdr : Headers) (r : Out reme_handle_t) (m : Manager) :
    reme_handle_t × Manager :=
  if m._has_compiled_context then
    let m := m.sdk (.reme_image_create m._c) r.reply
    let img := r.out
    (img, m)
  else
    (hdr.REME_ERROR_UNSPECIFIED, m)

/-! ## Vocabulary of the statements -/

/-- The signal a log line becomes. -/
def logSignal (l : Int × String) : Signal := .log_message l.1 l.2

/-- The members a run of the sequence never touches: the `_initializing` flag and
the thread pool. -/
def Manager.pool (m : Manager) : Bool × Nat × Nat := (m._initializing, m.queued, m.completed)

/-- SDK log messages and frame-size events. -/
def Signal.isLogOrFrameSize : Signal → Bool
  | .log_message _ _ => true
  | .rgb_size _ => true
  | .depth_size _ => true
  | .phong_size _ => true
  | _ => false

/-- A signal list with SDK log messages and frame-size events removed. -/
def stageTrace (signals : List Signal) : List Signal :=
  signals.filter fun s => !s.isLogOrFrameSize

/-- The calls that create or destroy a context. -/
def SdkCall.isContextCall : SdkCall → Bool
  | .reme_context_create _ => true
  | .reme_context_destroy _ => true
  | _ => false

/-- The calls to `reme_volume_create`. -/
def SdkCall.isVolumeCreate : SdkCall → Bool
  | .reme_volume_create _ _ => true
  | _ => false

/-- The calls to `reme_sensor_create` and `reme_sensor_open`. -/
def SdkCall.isSensorCreateOrOpen : SdkCall → Bool
  | .reme_sensor_create _ _ _ => true
  | .reme_sensor_open _ _ => true
  | _ => false

/-- The context calls of a call list, in order. -/
def contextCalls (calls : List (SdkCall × reme_error_t)) : List (SdkCall × reme_error_t) :=
  calls.filter fun e => e.1.isContextCall

/-- The `reme_volume_create` calls of a call list, in order. -/
def volumeCreates (calls : List (SdkCall × reme_error_t)) : List (SdkCall × reme_error_t) :=
  calls.filter fun e => e.1.isVolumeCreate

/-- The calls made between state `m` and a later state `m'`. -/
def callsSince (m m' : Manager) : List (SdkCall × reme_error_t) :=
  m'.calls.drop m.calls.length

/-- The signals emitted between state `m` and a later state `m'`. -/
def signalsSince (m m' : Manager) : List Signal :=
  m'.signals.drop m.signals.length

/-- What a piece of code does to the outside, in order: SDK calls (with what the
SDK gave back) and emitted signals. -/
inductive Effect where
  | call (c : SdkCall) (r : Reply)
  | emit (s : Signal)

/-- The call records of an effect list. -/
def recorded : List Effect → List (SdkCall × reme_error_t)
  | [] => []
  | .call c r :: es => (c, r.ret) :: recorded es
  | .emit _ :: es => recorded es

/-- The signals of an effect list: the log lines of each call, and the emitted
signals. -/
def emitted : List Effect → List Signal
  | [] => []
  | .call _ r :: es => r.logs.map logSignal ++ emitted es
  | .emit s :: es => s :: emitted es

/-- Appending the observations of an effect list to the manager's two lists. -/
def Manager.perform (m : Manager) (es : List Effect) : Manager :=
  { m with calls := m.calls ++ recorded es, signals := m.signals ++ emitted es }

/-- A call that is made only when `b` holds. -/
def callIf (b : Bool) (c : SdkCall) (r : Reply) : List Effect :=
  if b then [.call c r] else []

/-- The return value of `apply_license`. -/
def license_ok (hdr : Headers) (sdk : Sdk) : Bool :=
  hdr.REME_SUCCESS sdk.license_create.reply.ret &&
  !decide (sdk.license_authenticate.ret = hdr.REME_ERROR_INVALID_LICENSE) &&
  !decide (sdk.license_authenticate.ret = hdr.REME_ERROR_UNSPECIFIED)

/-- The configured options file is the default one, which is not loaded. -/
def default_config (hdr : Headers) (sdk : Sdk) : Bool :=
  decide (sdk.settings.config_path.getD hdr.config_path_default_tag
    = hdr.config_path_default_tag)

/-- The value of `success` in `compile_context` after the options file was
loaded (or skipped). -/
def options_ok (hdr : Headers) (sdk : Sdk) : Bool :=
  hdr.REME_SUCCESS sdk.options_create.reply.ret &&
  hdr.REME_SUCCESS sdk.context_bind_compile_options.ret &&
  (default_config hdr sdk || hdr.REME_SUCCESS sdk.options_load_from_file.ret)

/-- The value of `success` in `compile_context` after `reme_context_compile`: every
step before the volume allocation succeeded. -/
def compile_steps_ok (hdr : Headers) (sdk : Sdk) : Bool :=
  options_ok hdr sdk &&
  hdr.REME_SUCCESS sdk.options_set.ret &&
  hdr.REME_SUCCESS sdk.context_compile.ret

/-- The return value of `compile_context` entered with `_has_volume = has_volume`. -/
def compile_ok (hdr : Headers) (sdk : Sdk) (has_volume : Bool) : Bool :=
  compile_steps_ok hdr sdk && (has_volume || hdr.REME_SUCCESS sdk.volume_create.reply.ret)

/-- The effects of `apply_license` on context `c`. -/
def license_effects (hdr : Headers) (sdk : Sdk) (c : reme_handle_t) : List Effect :=
  [.call (.reme_license_create c) sdk.license_create.reply,
   .call (.reme_license_authenticate c sdk.license_create.out
      (sdk.settings.license_file.getD hdr.license_file_default_tag)) sdk.license_authenticate]

/-- The effects of `compile_context` on context `c`, entered with
`_has_volume = has_volume`: each call is made when all calls before it succeeded. -/
def compile_effects (hdr : Headers) (sdk : Sdk) (c : reme_handle_t) (has_volume : Bool) :
    List Effect :=
  [.call (.reme_options_create c) sdk.options_create.reply] ++
  callIf (hdr.REME_SUCCESS sdk.options_create.reply.ret)
    (.reme_context_bind_compile_options c sdk.options_create.out)
    sdk.context_bind_compile_options ++
  callIf (hdr.REME_SUCCESS sdk.options_create.reply.ret &&
      hdr.REME_SUCCESS sdk.context_bind_compile_options.ret && !default_config hdr sdk)
    (.reme_options_load_from_file c sdk.options_create.out
      (sdk.settings.config_path.getD hdr.config_path_default_tag))
    sdk.options_load_from_file ++
  callIf (options_ok hdr sdk)
    (.reme_options_set c sdk.options_create.out hdr.devcice_id_tag
      (toString (sdk.settings.opencl_device.getD hdr.opencl_device_default_tag)))
    sdk.options_set ++
  callIf (options_ok hdr sdk && hdr.REME_SUCCESS sdk.options_set.ret)
    (.reme_context_compile c) sdk.context_compile ++
  callIf (compile_steps_ok hdr sdk && !has_volume)
    (.reme_volume_create c sdk.volume_create.out) sdk.volume_create.reply

/-- The return value of `open_sensor` entered with `_has_compiled_context = has_cc`. -/
def sensor_ok (hdr : Headers) (sdk : Sdk) (has_cc : Bool) : Bool :=
  has_cc && hdr.REME_SUCCESS sdk.sensor_create.reply.ret &&
    hdr.REME_SUCCESS sdk.sensor_open.ret

/-- The value `open_sensor` of class `k` stores in `_rgb_size` when the sensor opened. -/
def frame_rgb_size (k : Class) (hdr : Headers) (sdk : Sdk) : Option QSize :=
  match k with
  | .reme_resource_manager =>
    if sdk.get_supports_aux.out then
      some (QSize.mk sdk.get_aux_width.out sdk.get_aux_height.out) else none
  | .reme_sdk_initializer =>
    if hdr.REME_SUCCESS sdk.image_size_aux.reply.ret then
      some (QSize.mk sdk.image_size_aux.out.1 sdk.image_size_aux.out.2) else none

/-- The value `open_sensor` of class `k` stores in `_depth_size` when the sensor
opened. -/
def frame_depth_size (k : Class) (hdr : Headers) (sdk : Sdk) : Option QSize :=
  match k with
  | .reme_resource_manager =>
    if sdk.get_supports_depth.out then
      some (QSize.mk sdk.get_depth_width.out sdk.get_depth_height.out) else none
  | .reme_sdk_initializer =>
    if hdr.REME_SUCCESS sdk.image_size_depth.reply.ret then
      some (QSize.mk sdk.image_size_depth.out.1 sdk.image_size_depth.out.2) else none

/-- The value of `_phong_size` after `open_sensor` of class `k` opened the sensor;
`reme_resource_manager` has no such member, `old` stays. -/
def frame_phong_size (k : Class) (hdr : Headers) (sdk : Sdk) (old : Option QSize) :
    Option QSize :=
  match k with
  | .reme_resource_manager => old
  | .reme_sdk_initializer =>
    if hdr.REME_SUCCESS sdk.image_size_volume.reply.ret then
      some (QSize.mk sdk.image_size_volume.out.1 sdk.image_size_volume.out.2) else none

/-- The effects of the `if (success)` block of `open_sensor` of class `k`, on
context `c` and sensor `s`: the frame-size queries and signals. -/
def frame_effects (k : Class) (hdr : Headers) (sdk : Sdk) (c s : reme_handle_t) :
    List Effect :=
  match k with
  | .reme_resource_manager =>
    [.call (.reme_options_create c) sdk.capture_options_create.reply,
     .call (.reme_sensor_bind_capture_options c s sdk.capture_options_create.out)
       sdk.sensor_bind_capture_options,
     .call (.reme_options_get_bool c sdk.capture_options_create.out "frame_info.supports_aux")
       sdk.get_supports_aux.reply] ++
    (if sdk.get_supports_aux.out then
      [.call (.reme_options_get_int c sdk.capture_options_create.out
          "frame_info.aux_size.width") sdk.get_aux_width.reply,
       .call (.reme_options_get_int c sdk.capture_options_create.out
          "frame_info.aux_size.height") sdk.get_aux_height.reply]
     else []) ++
    [.emit (.rgb_size (frame_rgb_size .reme_resource_manager hdr sdk)),
     .call (.reme_options_get_bool c sdk.capture_options_create.out
        "frame_info.supports_depth") sdk.get_supports_depth.reply] ++
    (if sdk.get_supports_depth.out then
      [.call (.reme_options_get_int c sdk.capture_options_create.out
          "frame_info.depth_size.width") sdk.get_depth_width.reply,
       .call (.reme_options_get_int c sdk.capture_options_create.out
          "frame_info.depth_size.height") sdk.get_depth_height.reply]
     else []) ++
    [.emit (.depth_size (frame_depth_size .reme_resource_manager hdr sdk))]
  | .reme_sdk_initializer =>
    [.call (.reme_sensor_get_image_size c s .REME_IMAGE_AUX) sdk.image_size_aux.reply,
     .emit (.rgb_size (frame_rgb_size .reme_sdk_initializer hdr sdk)),
     .call (.reme_sensor_get_image_size c s .REME_IMAGE_DEPTH) sdk.image_size_depth.reply,
     .emit (.depth_size (frame_depth_size .reme_sdk_initializer hdr sdk)),
     .call (.reme_sensor_get_image_size c s .REME_IMAGE_VOLUME) sdk.image_size_volume.reply,
     .emit (.phong_size (frame_phong_size .reme_sdk_initializer hdr sdk none))]

/-- The effects of `open_sensor` of class `k` on context `c`, entered with
`_has_compiled_context = has_cc`. -/
def sensor_effects (k : Class) (hdr : Headers) (sdk : Sdk) (c : reme_handle_t)
    (has_cc : Bool) : List Effect :=
  callIf has_cc
    (.reme_sensor_create c (sdk.settings.sensor_path.getD "") sdk.sensor_create.out)
    sdk.sensor_create.reply ++
  callIf (has_cc && hdr.REME_SUCCESS sdk.sensor_create.reply.ret)
    (.reme_sensor_open c sdk.sensor_create.out) sdk.sensor_open ++
  (if sensor_ok hdr sdk has_cc then frame_effects k hdr sdk c sdk.sensor_create.out else [])

/-- The effects of `_initialize` before the license stage, entered with `_c = c`. -/
def begin_effects (sdk : Sdk) (c : reme_handle_t) : List Effect :=
  [.emit .initializing_sdk] ++
  callIf (decide (c ≠ 0)) (.reme_context_destroy c) sdk.context_destroy.reply ++
  [.call (.reme_context_create sdk.context_create.out) sdk.context_create.reply,
   .call (.reme_context_set_log_callback sdk.context_create.out) sdk.context_set_log_callback,
   .emit (.initializing .LICENSE)]

/-- The effects of one run of `_initialize` of class `k`, entered with `_c = c`. -/
def run_effects (k : Class) (hdr : Headers) (sdk : Sdk) (c : reme_handle_t) : List Effect :=
  begin_effects sdk c ++
  license_effects hdr sdk sdk.context_create.out ++
  [.emit (.initialized .LICENSE (license_ok hdr sdk)), .emit (.initializing .OPENCL)] ++
  compile_effects hdr sdk sdk.context_create.out false ++
  [.emit (.initialized .OPENCL (compile_ok hdr sdk false)), .emit (.initializing .SENSOR)] ++
  sensor_effects k hdr sdk sdk.context_create.out (compile_ok hdr sdk false) ++
  [.emit (.initialized .SENSOR (sensor_ok hdr sdk (compile_ok hdr sdk false))),
   .emit (.sdk_initialized (sensor_ok hdr sdk (compile_ok hdr sdk false)))]

/-- Every reply of the run reports success through `REME_SUCCESS`. -/
def all_calls_succeed (hdr : Headers) (sdk : Sdk) : Bool :=
  hdr.REME_SUCCESS sdk.context_destroy.reply.ret &&
  hdr.REME_SUCCESS sdk.context_create.reply.ret &&
  hdr.REME_SUCCESS sdk.context_set_log_callback.ret &&
  hdr.REME_SUCCESS sdk.license_create.reply.ret &&
  hdr.REME_SUCCESS sdk.license_authenticate.ret &&
  hdr.REME_SUCCESS sdk.options_create.reply.ret &&
  hdr.REME_SUCCESS sdk.context_bind_compile_options.ret &&
  hdr.REME_SUCCESS sdk.options_load_from_file.ret &&
  hdr.REME_SUCCESS sdk.options_set.ret &&
  hdr.REME_SUCCESS sdk.context_compile.ret &&
  hdr.REME_SUCCESS sdk.volume_create.reply.ret &&
  hdr.REME_SUCCESS sdk.sensor_create.reply.ret &&
  hdr.REME_SUCCESS sdk.sensor_open.ret &&
  hdr.REME_SUCCESS sdk.capture_options_create.reply.ret &&
  hdr.REME_SUCCESS sdk.sensor_bind_capture_options.ret &&
  hdr.REME_SUCCESS sdk.get_supports_aux.reply.ret &&
  hdr.REME_SUCCESS sdk.get_aux_width.reply.ret &&
  hdr.REME_SUCCESS sdk.get_aux_height.reply.ret &&
  hdr.REME_SUCCESS sdk.get_supports_depth.reply.ret &&
  hdr.REME_SUCCESS sdk.get_depth_width.reply.ret &&
  hdr.REME_SUCCESS sdk.get_depth_height.reply.ret &&
  hdr.REME_SUCCESS sdk.image_size_aux.reply.ret &&
  hdr.REME_SUCCESS sdk.image_size_depth.reply.ret &&
  hdr.REME_SUCCESS sdk.image_size_volume.reply.ret

/-! ## Sample inputs

Concrete values on which the statements are evaluated. The header values are one
possible instantiation (success is code 0); the general theorems hold for every
instantiation. -/

/-- A sample instantiation of the header parameters. -/
def sample_headers : Headers where
  REME_SUCCESS := fun e => decide (e = 0)
  REME_ERROR_UNSPECIFIED := -1
  REME_ERROR_INVALID_LICENSE := -4
  license_file_default_tag := "license.txt.sgn"
  config_path_default_tag := "default"
  opencl_device_default_tag := 0
  devcice_id_tag := "device_id"

/-- A reply with return code 0 and no log line. -/
def reply_ok : Reply := ⟨0, []⟩

/-- A reply with return code -1 and one log line. -/
def reply_failed : Reply := ⟨-1, [(2, "failed")]⟩

/-- A run in which every SDK call returns 0; the SDK hands out context 11,
volume 12 and sensor 13, and reports a 640x480 frame for every stream. -/
def sdk_all_ok : Sdk where
  settings := ⟨some "openni", none, none, none⟩
  context_destroy := ⟨reply_ok, 0⟩
  context_create := ⟨reply_ok, 11⟩
  context_set_log_callback := reply_ok
  license_create := ⟨reply_ok, 1⟩
  license_authenticate := reply_ok
  options_create := ⟨reply_ok, 2⟩
  context_bind_compile_options := reply_ok
  options_load_from_file := reply_ok
  options_set := reply_ok
  context_compile := reply_ok
  volume_create := ⟨reply_ok, 12⟩
  sensor_create := ⟨reply_ok, 13⟩
  sensor_open := reply_ok
  capture_options_create := ⟨reply_ok, 3⟩
  sensor_bind_capture_options := reply_ok
  get_supports_aux := ⟨reply_ok, true⟩
  get_aux_width := ⟨reply_ok, 640⟩
  get_aux_height := ⟨reply_ok, 480⟩
  get_supports_depth := ⟨reply_ok, true⟩
  get_depth_width := ⟨reply_ok, 640⟩
  get_depth_height := ⟨reply_ok, 480⟩
  image_size_aux := ⟨reply_ok, (640, 480)⟩
  image_size_depth := ⟨reply_ok, (640, 480)⟩
  image_size_volume := ⟨reply_ok, (640, 480)⟩

/-- As `sdk_all_ok`, but authentication returns `REME_ERROR_INVALID_LICENSE`. -/
def sdk_invalid_license : Sdk :=
  { sdk_all_ok with license_authenticate := ⟨-4, [(2, "invalid license")]⟩ }

/-- A second successful run: the SDK hands out context 21, volume 22 and sensor 23. -/
def sdk_all_ok_again : Sdk :=
  { sdk_all_ok with context_create := ⟨reply_ok, 21⟩, volume_create := ⟨reply_ok, 22⟩,
                    sensor_create := ⟨reply_ok, 23⟩ }

/-- As `sdk_all_ok`, but `reme_options_create` in the compile stage fails. -/
def sdk_options_fail : Sdk :=
  { sdk_all_ok with options_create := ⟨reply_failed, 0⟩ }

/-- As `sdk_all_ok`, but `reme_volume_create` fails. -/
def sdk_volume_fail : Sdk :=
  { sdk_all_ok with volume_create := ⟨reply_failed, 0⟩ }

/-- A freshly constructed manager (the uninitialized members hold zeros). -/
def fresh : Manager :=
  construct ⟨0, 0, 0, false, false, false, false, none, none, none, [], [], 0, 0⟩

/-- A manager with a compiled context and no sensor. -/
def compiled_no_sensor : Manager :=
  { fresh with _c := 11, _v := 12, _has_compiled_context := true, _has_volume := true }

/-- A sample sequence of events: a second and third `initialize()` arrive while the
first task is queued or has run; a fourth arrives after `finished()`. -/
def sample_events : List Event :=
  [.initialize_called, .initialize_called, .task_runs sdk_all_ok, .initialize_called,
   .task_finished, .initialize_called]

/-- The optional teardown after the runs: the destructor, or nothing. -/
def teardown (td : Bool) (r : Out reme_handle_t) (m : Manager) : Manager :=
  if td then destruct r m else m

/-- The context handles created and not yet destroyed after a list of calls, `acc`
being those live before it: a successful `reme_context_create` adds the handle it
produced, `reme_context_destroy` removes the handle it is called on. -/
def liveContexts (hdr : Headers) (acc : List reme_handle_t) :
    List (SdkCall × reme_error_t) → List reme_handle_t
  | [] => acc
  | (.reme_context_create c, ret) :: rest =>
    liveContexts hdr (if hdr.REME_SUCCESS ret then c :: acc else acc) rest
  | (.reme_context_destroy c, _) :: rest => liveContexts hdr (acc.erase c) rest
  | _ :: rest => liveContexts hdr acc rest

/-- The context calls of successive runs on a manager whose handle is `c`, followed
by the optional teardown: each run destroys the handle it finds, unless that is 0,
and creates a new one. -/
def context_trace (td : Bool) (r : Out reme_handle_t) (c : reme_handle_t) :
    List Sdk → List (SdkCall × reme_error_t)
  | [] => if td && decide (c ≠ 0) then [(.reme_context_destroy c, r.reply.ret)] else []
  | sdk :: rest =>
    (if c ≠ 0 then [(SdkCall.reme_context_destroy c, sdk.context_destroy.reply.ret)] else [])
    ++ (SdkCall.reme_context_create sdk.context_create.out, sdk.context_create.reply.ret)
      :: context_trace td r sdk.context_create.out rest

/-! # Theorems -/

/-! ## Basic facts about the observation lists -/

theorem reme_log_eq (logs : List (Int × String)) (m : Manager) :
    reme_log m logs = { m with signals := m.signals ++ logs.map logSignal } := by
  induction logs generalizing m with
  | nil => simp [reme_log]
  | cons l ls ih =>
    have h := ih (new_log_message m l.1 l.2)
    simp only [reme_log, List.foldl_cons] at h ⊢
    rw [h]
    simp [new_log_message, Manager.emit, logSignal]

theorem sdk_eq (m : Manager) (call : SdkCall) (r : Reply) :
    m.sdk call r =
      { m with calls := m.calls ++ [(call, r.ret)],
               signals := m.signals ++ r.logs.map logSignal } := by
  simp [Manager.sdk, reme_log_eq]

theorem stageTrace_append (a b : List Signal) :
    stageTrace (a ++ b) = stageTrace a ++ stageTrace b := by
  simp [stageTrace]

theorem stageTrace_logs (logs : List (Int × String)) :
    stageTrace (logs.map logSignal) = [] := by
  induction logs with
  | nil => rfl
  | cons l ls ih => simpa [stageTrace, logSignal, Signal.isLogOrFrameSize] using ih

theorem recorded_append (a b : List Effect) : recorded (a ++ b) = recorded a ++ recorded b := by
  induction a with
  | nil => rfl
  | cons e es ih => cases e <;> simp [recorded, ih]

theorem emitted_append (a b : List Effect) : emitted (a ++ b) = emitted a ++ emitted b := by
  induction a with
  | nil => rfl
  | cons e es ih => cases e <;> simp [emitted, ih]

/-! ## Each piece of the sequence, as effects and member updates -/

theorem apply_license_eq (hdr : Headers) (sdk : Sdk) (m : Manager) :
    apply_license hdr sdk m = (license_ok hdr sdk, m.perform (license_effects hdr sdk m._c)) := by
  by_cases ha : sdk.license_authenticate.ret = hdr.REME_ERROR_INVALID_LICENSE <;>
  by_cases hb : sdk.license_authenticate.ret = hdr.REME_ERROR_UNSPECIFIED <;>
  simp [apply_license, sdk_eq, Manager.perform, license_effects, recorded, emitted,
    license_ok, ha, hb]

set_option maxHeartbeats 4000000 in
theorem compile_context_eq (hdr : Headers) (sdk : Sdk) (m : Manager) :
    compile_context hdr sdk m =
      (compile_ok hdr sdk m._has_volume,
        { m.perform (compile_effects hdr sdk m._c m._has_volume) with
          _v := if compile_steps_ok hdr sdk && !m._has_volume then sdk.volume_create.out
                else m._v,
          _has_volume := true,
          _has_compiled_context := compile_ok hdr sdk m._has_volume }) := by
  rcases m with ⟨c, s, v, hs, hc, hv, ini, rgb, dep, pho, sigs, calls, q, cp⟩
  by_cases hp : sdk.settings.config_path.getD hdr.config_path_default_tag
      = hdr.config_path_default_tag <;>
  cases hv <;>
  cases h1 : hdr.REME_SUCCESS sdk.options_create.reply.ret <;>
  cases h2 : hdr.REME_SUCCESS sdk.context_bind_compile_options.ret <;>
  cases h3 : hdr.REME_SUCCESS sdk.options_load_from_file.ret <;>
  cases h4 : hdr.REME_SUCCESS sdk.options_set.ret <;>
  cases h5 : hdr.REME_SUCCESS sdk.context_compile.ret <;>
  simp [compile_context, andSuccess, sdk_eq, compile_steps_ok, options_ok, default_config,
    compile_ok, compile_effects, callIf, Manager.perform, recorded, emitted, *]


set_option maxHeartbeats 4000000 in
theorem open_sensor_eq (k : Class) (hdr : Headers) (sdk : Sdk) (m : Manager) :
    open_sensor k hdr sdk m =
      (sensor_ok hdr sdk m._has_compiled_context,
        { m.perform (sensor_effects k hdr sdk m._c m._has_compiled_context) with
          _s := if m._has_compiled_context then sdk.sensor_create.out else m._s,
          _has_sensor := sensor_ok hdr sdk m._has_compiled_context,
          _rgb_size := if sensor_ok hdr sdk m._has_compiled_context
            then frame_rgb_size k hdr sdk else m._rgb_size,
          _depth_size := if sensor_ok hdr sdk m._has_compiled_context
            then frame_depth_size k hdr sdk else m._depth_size,
          _phong_size := if sensor_ok hdr sdk m._has_compiled_context
            then frame_phong_size k hdr sdk m._phong_size else m._phong_size }) := by
  rcases m with ⟨c, s, v, hs, hc, hv, ini, rgb, dep, pho, sigs, calls, q, cp⟩
  cases k <;>
  cases hc <;>
  cases h1 : hdr.REME_SUCCESS sdk.sensor_create.reply.ret <;>
  cases h2 : hdr.REME_SUCCESS sdk.sensor_open.ret <;>
  cases h3 : sdk.get_supports_aux.out <;>
  cases h4 : sdk.get_supports_depth.out <;>
  simp [open_sensor, reme_resource_manager.open_sensor, reme_sdk_initializer.open_sensor,
    andSuccess, sdk_eq, sensor_ok, sensor_effects, frame_effects, frame_rgb_size,
    frame_depth_size, frame_phong_size, callIf, Manager.perform, Manager.emit, recorded,
    emitted, *]

theorem enter_license_eq (sdk : Sdk) (m : Manager) :
    enter_license sdk m =
      { m.perform (begin_effects sdk m._c) with
        _c := sdk.context_create.out,
        _has_sensor := false,
        _has_compiled_context := false,
        _has_volume := false } := by
  by_cases hc : m._c = 0 <;>
  simp [enter_license, sdk_eq, begin_effects, callIf, Manager.perform, Manager.emit, recorded,
    emitted, hc]

theorem _initialize_eq (k : Class) (hdr : Headers) (sdk : Sdk) (m : Manager) :
    _initialize k hdr sdk m =
      { m.perform (run_effects k hdr sdk m._c) with
        _c := sdk.context_create.out,
        _s := if compile_ok hdr sdk false then sdk.sensor_create.out else m._s,
        _v := if compile_steps_ok hdr sdk then sdk.volume_create.out else m._v,
        _has_sensor := sensor_ok hdr sdk (compile_ok hdr sdk false),
        _has_compiled_context := compile_ok hdr sdk false,
        _has_volume := true,
        _rgb_size := if sensor_ok hdr sdk (compile_ok hdr sdk false)
          then frame_rgb_size k hdr sdk else m._rgb_size,
        _depth_size := if sensor_ok hdr sdk (compile_ok hdr sdk false)
          then frame_depth_size k hdr sdk else m._depth_size,
        _phong_size := if sensor_ok hdr sdk (compile_ok hdr sdk false)
          then frame_phong_size k hdr sdk m._phong_size else m._phong_size } := by
  have hagg : ∀ b : Bool, (b && sensor_ok hdr sdk b) = sensor_ok hdr sdk b := by
    intro b; cases b <;> simp [sensor_ok]
  simp [ _initialize, enter_sensor, enter_opencl, open_sensor_eq, compile_context_eq,
    apply_license_eq, enter_license_eq, run_effects, Manager.perform, Manager.emit,
    recorded_append, emitted_append, recorded, emitted, hagg]

/-! ## The factory methods and the sensor guard -/

/-- C5: `new_image()` returns `REME_ERROR_UNSPECIFIED` and leaves the state, hence the
list of SDK calls, unchanged in every state with `_has_compiled_context = false`;
`new_calibrator()` does so in every state with `_has_sensor = false`, whatever
`_has_compiled_context` is. -/
theorem factory_precondition_failure (hdr : Headers) (r : Out reme_handle_t) (m : Manager) :
    (m._has_compiled_context = false → new_image hdr r m = (hdr.REME_ERROR_UNSPECIFIED, m)) ∧
    (m._has_sensor = false → new_calibrator hdr r m = (hdr.REME_ERROR_UNSPECIFIED, m)) := by
  constructor
  · intro h
    simp [new_image, h]
  · intro h
    simp [new_calibrator, h]

/-- C5 at sample inputs: no compiled context for `new_image`, a compiled context
without sensor for `new_calibrator`. -/
theorem factory_precondition_failure_witness :
    new_image sample_headers ⟨reply_ok, 7⟩ fresh = (-1, fresh) ∧
    new_calibrator sample_headers ⟨reply_ok, 7⟩ compiled_no_sensor = (-1, compiled_no_sensor) :=
  ⟨(factory_precondition_failure sample_headers ⟨reply_ok, 7⟩ fresh).1 rfl,
   (factory_precondition_failure sample_headers ⟨reply_ok, 7⟩ compiled_no_sensor).2 rfl⟩

/-- C4: entered with `_has_compiled_context = false`, `open_sensor` of either class
returns false and changes nothing but `_has_sensor`, which it sets to false: no SDK
call is made and no signal is emitted. Consequently, whenever `open_sensor` makes a
call at all, the compiled-context flag was true on entry. -/
theorem open_sensor_without_compiled_context (k : Class) (hdr : Headers) (sdk : Sdk)
    (m : Manager) :
    (m._has_compiled_context = false →
      open_sensor k hdr sdk m = (false, { m with _has_sensor := false })) ∧
    ((∃ e ∈ callsSince m (open_sensor k hdr sdk m).2, e.1.isSensorCreateOrOpen = true) →
      m._has_compiled_context = true) := by
  have h1 : m._has_compiled_context = false →
      open_sensor k hdr sdk m = (false, { m with _has_sensor := false }) := by
    intro h
    rw [open_sensor_eq]
    simp [h, sensor_ok, sensor_effects, callIf, Manager.perform, recorded, emitted]
  refine ⟨h1, ?_⟩
  rintro ⟨e, he, -⟩
  cases hc : m._has_compiled_context
  · rw [h1 hc] at he
    simp [callsSince] at he
  · rfl

/-- C4 at sample inputs: a fresh manager of each class. -/
theorem open_sensor_without_compiled_context_witness :
    open_sensor .reme_resource_manager sample_headers sdk_all_ok fresh = (false, fresh) ∧
    open_sensor .reme_sdk_initializer sample_headers sdk_all_ok fresh = (false, fresh) :=
  ⟨(open_sensor_without_compiled_context .reme_resource_manager sample_headers sdk_all_ok
      fresh).1 rfl,
   (open_sensor_without_compiled_context .reme_sdk_initializer sample_headers sdk_all_ok
      fresh).1 rfl⟩

/-! ## One run: return values, signals and calls -/

theorem apply_license_ret (hdr : Headers) (sdk : Sdk) (m : Manager) :
    (apply_license hdr sdk (enter_license sdk m)).1 = license_ok hdr sdk := by
  rw [apply_license_eq]

theorem compile_context_ret (hdr : Headers) (sdk : Sdk) (m : Manager) :
    (compile_context hdr sdk (enter_opencl hdr sdk m)).1 = compile_ok hdr sdk false := by
  simp [compile_context_eq, enter_opencl, apply_license_eq, enter_license_eq, Manager.perform,
    Manager.emit]

theorem open_sensor_ret (k : Class) (hdr : Headers) (sdk : Sdk) (m : Manager) :
    (open_sensor k hdr sdk (enter_sensor hdr sdk m)).1 =
      sensor_ok hdr sdk (compile_ok hdr sdk false) := by
  simp [open_sensor_eq, enter_sensor, compile_context_eq, enter_opencl, apply_license_eq,
    enter_license_eq, Manager.perform, Manager.emit]

theorem signalsSince_run (k : Class) (hdr : Headers) (sdk : Sdk) (m : Manager) :
    signalsSince m ( _initialize k hdr sdk m) = emitted (run_effects k hdr sdk m._c) := by
  simp [signalsSince, _initialize_eq, Manager.perform]

theorem callsSince_run (k : Class) (hdr : Headers) (sdk : Sdk) (m : Manager) :
    callsSince m ( _initialize k hdr sdk m) = recorded (run_effects k hdr sdk m._c) := by
  simp [callsSince, _initialize_eq, Manager.perform]

theorem stageTrace_nil : stageTrace [] = [] := rfl

theorem stageTrace_cons (s : Signal) (l : List Signal) :
    stageTrace (s :: l) = if s.isLogOrFrameSize then stageTrace l else s :: stageTrace l := by
  cases h : s.isLogOrFrameSize <;> simp [stageTrace, h]

theorem stageTrace_callIf (b : Bool) (c : SdkCall) (r : Reply) :
    stageTrace (emitted (callIf b c r)) = [] := by
  cases b <;> simp [callIf, emitted, stageTrace_logs, stageTrace_nil]

theorem stageTrace_license (hdr : Headers) (sdk : Sdk) (c : reme_handle_t) :
    stageTrace (emitted (license_effects hdr sdk c)) = [] := by
  simp [license_effects, emitted, stageTrace_append, stageTrace_logs, stageTrace_nil]

theorem stageTrace_compile (hdr : Headers) (sdk : Sdk) (c : reme_handle_t) (hv : Bool) :
    stageTrace (emitted (compile_effects hdr sdk c hv)) = [] := by
  simp [compile_effects, emitted, emitted_append, stageTrace_append, stageTrace_logs,
    stageTrace_callIf, stageTrace_nil]

theorem stageTrace_frame (k : Class) (hdr : Headers) (sdk : Sdk) (c s : reme_handle_t) :
    stageTrace (emitted (frame_effects k hdr sdk c s)) = [] := by
  cases k
  · simp only [frame_effects]
    split_ifs <;>
      simp [emitted, stageTrace_append, stageTrace_logs, stageTrace_nil, stageTrace_cons,
        Signal.isLogOrFrameSize]
  · simp [frame_effects, emitted, stageTrace_append, stageTrace_logs, stageTrace_nil,
      stageTrace_cons, Signal.isLogOrFrameSize]

theorem stageTrace_sensor (k : Class) (hdr : Headers) (sdk : Sdk) (c : reme_handle_t)
    (hc : Bool) : stageTrace (emitted (sensor_effects k hdr sdk c hc)) = [] := by
  simp only [sensor_effects]
  split_ifs <;>
    simp [emitted, emitted_append, stageTrace_append, stageTrace_callIf, stageTrace_frame,
      stageTrace_nil]

/-- The signals of one run, log messages and frame-size events removed. -/
theorem stageTrace_run (k : Class) (hdr : Headers) (sdk : Sdk) (c : reme_handle_t) :
    stageTrace (emitted (run_effects k hdr sdk c)) =
      [.initializing_sdk,
       .initializing .LICENSE, .initialized .LICENSE (license_ok hdr sdk),
       .initializing .OPENCL, .initialized .OPENCL (compile_ok hdr sdk false),
       .initializing .SENSOR,
       .initialized .SENSOR (sensor_ok hdr sdk (compile_ok hdr sdk false)),
       .sdk_initialized (sensor_ok hdr sdk (compile_ok hdr sdk false))] := by
  simp [run_effects, begin_effects, emitted, emitted_append, stageTrace_append,
    stageTrace_callIf, stageTrace_license, stageTrace_compile, stageTrace_sensor,
    stageTrace_logs, stageTrace_nil, stageTrace_cons, Signal.isLogOrFrameSize]

/-- The last signal of a run. -/
theorem run_last_signal (k : Class) (hdr : Headers) (sdk : Sdk) (m : Manager) :
    ( _initialize k hdr sdk m).signals.getLast? =
      some (.sdk_initialized (sensor_ok hdr sdk (compile_ok hdr sdk false))) := by
  have h : ∀ (l : List Signal) (es : List Effect) (x y : Signal),
      (l ++ emitted (es ++ [.emit x, .emit y])).getLast? = some y := by
    intro l es x y
    have : l ++ emitted (es ++ [.emit x, .emit y]) = (l ++ emitted es ++ [x]) ++ [y] := by
      simp [emitted_append, emitted]
    rw [this, List.getLast?_append]
    simp
  simp only [_initialize_eq, Manager.perform, run_effects]
  exact h _ _ _ _

/-! ## The outcome of a run -/

/-- C1: when every SDK call of a run reports success, the run of either class ends
with `_has_compiled_context`, `_has_sensor` and `_has_volume` all true, and its last
signal is `sdk_initialized(true)`. -/
theorem successful_run_sets_all_flags (k : Class) (hdr : Headers) (sdk : Sdk) (m : Manager)
    (h : all_calls_succeed hdr sdk = true) :
    ( _initialize k hdr sdk m)._has_compiled_context = true ∧
    ( _initialize k hdr sdk m)._has_sensor = true ∧
    ( _initialize k hdr sdk m)._has_volume = true ∧
    ( _initialize k hdr sdk m).signals.getLast? = some (.sdk_initialized true) := by
  simp only [all_calls_succeed, Bool.and_eq_true] at h
  have hc : compile_ok hdr sdk false = true := by
    simp [compile_ok, compile_steps_ok, options_ok, h]
  have hs : sensor_ok hdr sdk (compile_ok hdr sdk false) = true := by
    simp [sensor_ok, hc, h]
  refine ⟨?_, ?_, ?_, ?_⟩
  · simp [_initialize_eq, hc]
  · simp [_initialize_eq, hs]
  · simp [_initialize_eq]
  · rw [run_last_signal, hs]

/-- C1 at a sample input: a fresh manager of each class and a run in which every
call returns 0. -/
theorem successful_run_sets_all_flags_witness :
    all_calls_succeed sample_headers sdk_all_ok = true ∧
    ( _initialize .reme_resource_manager sample_headers sdk_all_ok fresh).signals.getLast?
      = some (.sdk_initialized true) ∧
    ( _initialize .reme_sdk_initializer sample_headers sdk_all_ok fresh).signals.getLast?
      = some (.sdk_initialized true) :=
  ⟨rfl,
   (successful_run_sets_all_flags .reme_resource_manager sample_headers sdk_all_ok fresh
      rfl).2.2.2,
   (successful_run_sets_all_flags .reme_sdk_initializer sample_headers sdk_all_ok fresh
      rfl).2.2.2⟩

/-- C8: whatever the SDK calls return, the signals of a run of either class, log
messages and frame-size events removed, are exactly `initializing_sdk`, then for
LICENSE, OPENCL and SENSOR in this order `initializing(stage)` and
`initialized(stage, b)` with `b` the return value of `apply_license`,
`compile_context`, `open_sensor`, then `sdk_initialized(b)` with `b` the conjunction
of the three flags; and `sdk_initialized` is the last signal of the run. -/
theorem stage_notifications_in_order (k : Class) (hdr : Headers) (sdk : Sdk) (m : Manager) :
    stageTrace (signalsSince m ( _initialize k hdr sdk m)) =
      [.initializing_sdk,
       .initializing .LICENSE,
       .initialized .LICENSE (apply_license hdr sdk (enter_license sdk m)).1,
       .initializing .OPENCL,
       .initialized .OPENCL (compile_context hdr sdk (enter_opencl hdr sdk m)).1,
       .initializing .SENSOR,
       .initialized .SENSOR (open_sensor k hdr sdk (enter_sensor hdr sdk m)).1,
       .sdk_initialized (( _initialize k hdr sdk m)._has_compiled_context &&
          ( _initialize k hdr sdk m)._has_sensor && ( _initialize k hdr sdk m)._has_volume)] ∧
    ( _initialize k hdr sdk m).signals.getLast? =
      some (.sdk_initialized (( _initialize k hdr sdk m)._has_compiled_context &&
          ( _initialize k hdr sdk m)._has_sensor && ( _initialize k hdr sdk m)._has_volume)) := by
  have hagg : (( _initialize k hdr sdk m)._has_compiled_context &&
      ( _initialize k hdr sdk m)._has_sensor && ( _initialize k hdr sdk m)._has_volume) =
      sensor_ok hdr sdk (compile_ok hdr sdk false) := by
    simp only [_initialize_eq]
    cases compile_ok hdr sdk false <;> simp [sensor_ok]
  rw [hagg, signalsSince_run, stageTrace_run, apply_license_ret, compile_context_ret,
    open_sensor_ret, run_last_signal]
  exact ⟨rfl, rfl⟩

/-- C10: whatever the SDK calls return, the value carried by `sdk_initialized` is the
value carried by `initialized(SENSOR, b3)`, the return value of `open_sensor`. After
`compile_context` the flag `_has_volume` is true in every case; after `open_sensor`,
`_has_sensor` implies `_has_compiled_context`; so the conjunction of the three flags
is `_has_sensor`. Replacing the two license replies of a run by any others does not
change the value carried by `sdk_initialized`. -/
theorem aggregate_is_sensor_outcome (k : Class) (hdr : Headers) (sdk : Sdk) (m : Manager) :
    (stageTrace (signalsSince m ( _initialize k hdr sdk m))).drop 6 =
      [.initialized .SENSOR (open_sensor k hdr sdk (enter_sensor hdr sdk m)).1,
       .sdk_initialized (open_sensor k hdr sdk (enter_sensor hdr sdk m)).1] ∧
    ( _initialize k hdr sdk m).signals.getLast? =
      some (.sdk_initialized (open_sensor k hdr sdk (enter_sensor hdr sdk m)).1) ∧
    (∀ m₀ : Manager, (compile_context hdr sdk m₀).2._has_volume = true) ∧
    (∀ m₀ : Manager, (open_sensor k hdr sdk m₀).2._has_sensor = true →
      (open_sensor k hdr sdk m₀).2._has_compiled_context = true) ∧
    (( _initialize k hdr sdk m)._has_compiled_context && ( _initialize k hdr sdk m)._has_sensor
        && ( _initialize k hdr sdk m)._has_volume) = ( _initialize k hdr sdk m)._has_sensor ∧
    (∀ (lc : Out reme_handle_t) (la : Reply),
      ( _initialize k hdr { sdk with license_create := lc, license_authenticate := la }
          m).signals.getLast? = ( _initialize k hdr sdk m).signals.getLast?) := by
  refine ⟨?_, ?_, ?_, ?_, ?_, ?_⟩
  · rw [signalsSince_run, stageTrace_run, open_sensor_ret]
    rfl
  · rw [run_last_signal, open_sensor_ret]
  · intro m₀
    simp [compile_context_eq]
  · intro m₀
    simp only [open_sensor_eq, Manager.perform]
    cases m₀._has_compiled_context <;> simp [sensor_ok]
  · simp only [_initialize_eq]
    cases compile_ok hdr sdk false <;> simp [sensor_ok]
  · intro lc la
    rw [run_last_signal, run_last_signal]
    rfl

/-- C10 at a sample input: the license is invalid, and both `initialized(SENSOR, _)`
and `sdk_initialized(_)` carry true. -/
theorem aggregate_is_sensor_outcome_witness :
    (stageTrace (signalsSince fresh
      ( _initialize .reme_sdk_initializer sample_headers sdk_invalid_license fresh))).drop 6 =
      [.initialized .SENSOR true, .sdk_initialized true] :=
  (aggregate_is_sensor_outcome .reme_sdk_initializer sample_headers sdk_invalid_license
    fresh).1

/-- C2, the claim refuted: in this run of `reme_resource_manager` authentication
returns `REME_ERROR_INVALID_LICENSE`, so `apply_license` returns false and
`initialized(LICENSE, false)` is emitted; every other call succeeds, and the run
ends with `sdk_initialized(true)`. -/
theorem license_failure_aggregate_true :
    (apply_license sample_headers sdk_invalid_license
      (enter_license sdk_invalid_license fresh)).1 = false ∧
    Signal.initialized .LICENSE false ∈
      ( _initialize .reme_resource_manager sample_headers sdk_invalid_license fresh).signals ∧
    ( _initialize .reme_resource_manager sample_headers sdk_invalid_license fresh).signals.getLast?
      = some (.sdk_initialized true) := by
  refine ⟨rfl, ?_, rfl⟩
  decide

/-- C2 as amended: when the license stage fails (license creation failed, or
authentication returned `REME_ERROR_INVALID_LICENSE` or `REME_ERROR_UNSPECIFIED`),
`apply_license` returns false, the compile and sensor stages are still executed and
reported (the first compile call, `reme_options_create`, is made on the new context),
and `sdk_initialized` carries the conjunction of the compile and sensor outcomes: the
license outcome does not enter it. -/
theorem license_failure_still_runs_stages (k : Class) (hdr : Headers) (sdk : Sdk)
    (m : Manager)
    (h : hdr.REME_SUCCESS sdk.license_create.reply.ret = false ∨
         sdk.license_authenticate.ret = hdr.REME_ERROR_INVALID_LICENSE ∨
         sdk.license_authenticate.ret = hdr.REME_ERROR_UNSPECIFIED) :
    (apply_license hdr sdk (enter_license sdk m)).1 = false ∧
    stageTrace (signalsSince m ( _initialize k hdr sdk m)) =
      [.initializing_sdk,
       .initializing .LICENSE,
       .initialized .LICENSE false,
       .initializing .OPENCL,
       .initialized .OPENCL (compile_context hdr sdk (enter_opencl hdr sdk m)).1,
       .initializing .SENSOR,
       .initialized .SENSOR (open_sensor k hdr sdk (enter_sensor hdr sdk m)).1,
       .sdk_initialized ((compile_context hdr sdk (enter_opencl hdr sdk m)).1 &&
          (open_sensor k hdr sdk (enter_sensor hdr sdk m)).1)] ∧
    (SdkCall.reme_options_create sdk.context_create.out, sdk.options_create.reply.ret) ∈
      callsSince m ( _initialize k hdr sdk m) := by
  have hl : license_ok hdr sdk = false := by
    rcases h with h | h | h <;> simp [license_ok, h]
  have hagg : (compile_ok hdr sdk false && sensor_ok hdr sdk (compile_ok hdr sdk false)) =
      sensor_ok hdr sdk (compile_ok hdr sdk false) := by
    cases compile_ok hdr sdk false <;> simp [sensor_ok]
  refine ⟨?_, ?_, ?_⟩
  · rw [apply_license_ret, hl]
  · rw [signalsSince_run, stageTrace_run, compile_context_ret, open_sensor_ret, hl, hagg]
  · rw [callsSince_run]
    simp [run_effects, compile_effects, recorded_append, recorded]

/-- C2 as amended, at the refuting input: the stages are reported and the aggregate
is the conjunction of the compile and sensor outcomes, here true. -/
theorem license_failure_still_runs_stages_witness :
    (sample_headers.REME_SUCCESS sdk_invalid_license.license_create.reply.ret = false ∨
      sdk_invalid_license.license_authenticate.ret = sample_headers.REME_ERROR_INVALID_LICENSE ∨
      sdk_invalid_license.license_authenticate.ret = sample_headers.REME_ERROR_UNSPECIFIED) ∧
    (apply_license sample_headers sdk_invalid_license
      (enter_license sdk_invalid_license fresh)).1 = false :=
  ⟨Or.inr (Or.inl rfl),
   (license_failure_still_runs_stages .reme_resource_manager sample_headers
      sdk_invalid_license fresh (Or.inr (Or.inl rfl))).1⟩

/-! ## The context and volume calls of a run -/

theorem contextCalls_nil : contextCalls [] = [] := rfl

theorem contextCalls_cons (e : SdkCall × reme_error_t) (l : List (SdkCall × reme_error_t)) :
    contextCalls (e :: l) = if e.1.isContextCall then e :: contextCalls l else contextCalls l := by
  cases h : e.1.isContextCall <;> simp [contextCalls, h]

theorem contextCalls_append (a b : List (SdkCall × reme_error_t)) :
    contextCalls (a ++ b) = contextCalls a ++ contextCalls b := by
  simp [contextCalls]

theorem contextCalls_callIf (b : Bool) (c : SdkCall) (r : Reply) :
    contextCalls (recorded (callIf b c r)) =
      if b && c.isContextCall then [(c, r.ret)] else [] := by
  cases b <;> cases h : c.isContextCall <;>
    simp [callIf, recorded, contextCalls_nil, contextCalls_cons, h]

theorem volumeCreates_nil : volumeCreates [] = [] := rfl

theorem volumeCreates_cons (e : SdkCall × reme_error_t) (l : List (SdkCall × reme_error_t)) :
    volumeCreates (e :: l) =
      if e.1.isVolumeCreate then e :: volumeCreates l else volumeCreates l := by
  cases h : e.1.isVolumeCreate <;> simp [volumeCreates, h]

theorem volumeCreates_append (a b : List (SdkCall × reme_error_t)) :
    volumeCreates (a ++ b) = volumeCreates a ++ volumeCreates b := by
  simp [volumeCreates]

theorem volumeCreates_callIf (b : Bool) (c : SdkCall) (r : Reply) :
    volumeCreates (recorded (callIf b c r)) =
      if b && c.isVolumeCreate then [(c, r.ret)] else [] := by
  cases b <;> cases h : c.isVolumeCreate <;>
    simp [callIf, recorded, volumeCreates_nil, volumeCreates_cons, h]

theorem contextCalls_frame (k : Class) (hdr : Headers) (sdk : Sdk) (c s : reme_handle_t) :
    contextCalls (recorded (frame_effects k hdr sdk c s)) = [] := by
  cases k
  · simp only [frame_effects]
    split_ifs <;>
      simp [recorded, contextCalls_nil, contextCalls_cons, SdkCall.isContextCall]
  · simp [frame_effects, recorded, contextCalls_nil, contextCalls_cons, SdkCall.isContextCall]

theorem volumeCreates_frame (k : Class) (hdr : Headers) (sdk : Sdk) (c s : reme_handle_t) :
    volumeCreates (recorded (frame_effects k hdr sdk c s)) = [] := by
  cases k
  · simp only [frame_effects]
    split_ifs <;>
      simp [recorded, volumeCreates_nil, volumeCreates_cons, SdkCall.isVolumeCreate]
  · simp [frame_effects, recorded, volumeCreates_nil, volumeCreates_cons,
      SdkCall.isVolumeCreate]

theorem contextCalls_sensor (k : Class) (hdr : Headers) (sdk : Sdk) (c : reme_handle_t)
    (hc : Bool) : contextCalls (recorded (sensor_effects k hdr sdk c hc)) = [] := by
  simp only [sensor_effects]
  split_ifs <;>
    simp [recorded_append, recorded, contextCalls_append, contextCalls_callIf,
      contextCalls_frame, contextCalls_nil, SdkCall.isContextCall]

theorem volumeCreates_sensor (k : Class) (hdr : Headers) (sdk : Sdk) (c : reme_handle_t)
    (hc : Bool) : volumeCreates (recorded (sensor_effects k hdr sdk c hc)) = [] := by
  simp only [sensor_effects]
  split_ifs <;>
    simp [recorded_append, recorded, volumeCreates_append, volumeCreates_callIf,
      volumeCreates_frame, volumeCreates_nil, SdkCall.isVolumeCreate]

/-- The context calls of one run: the old context, when there is one, is destroyed,
then the new one is created. -/
theorem contextCalls_run (k : Class) (hdr : Headers) (sdk : Sdk) (c : reme_handle_t) :
    contextCalls (recorded (run_effects k hdr sdk c)) =
      (if c ≠ 0 then [(SdkCall.reme_context_destroy c, sdk.context_destroy.reply.ret)] else [])
      ++ [(SdkCall.reme_context_create sdk.context_create.out, sdk.context_create.reply.ret)] := by
  by_cases hc : c = 0 <;>
  simp [run_effects, begin_effects, license_effects, compile_effects,
    recorded_append, recorded, contextCalls_append, contextCalls_callIf, contextCalls_cons,
    contextCalls_nil, contextCalls_sensor, SdkCall.isContextCall, hc]

/-- The `reme_volume_create` calls of one run: one, when the compile steps before it
succeeded, else none. -/
theorem volumeCreates_run (k : Class) (hdr : Headers) (sdk : Sdk) (c : reme_handle_t) :
    volumeCreates (recorded (run_effects k hdr sdk c)) =
      if compile_steps_ok hdr sdk then
        [(SdkCall.reme_volume_create sdk.context_create.out sdk.volume_create.out,
          sdk.volume_create.reply.ret)]
      else [] := by
  cases hs : compile_steps_ok hdr sdk <;>
  simp [run_effects, begin_effects, license_effects, compile_effects,
    recorded_append, recorded, volumeCreates_append, volumeCreates_callIf, volumeCreates_cons,
    volumeCreates_nil, volumeCreates_sensor, SdkCall.isVolumeCreate, hs]

/-! ## Volume allocation -/

/-- C3, the claim refuted: two successful runs of `reme_resource_manager` on a fresh
manager. The first run calls `reme_volume_create` and leaves `_has_volume = true`,
`_v = 12`; the second run calls `reme_volume_create` again, and `_v` is 22 after it. -/
theorem volume_created_again_on_second_run :
    (runs .reme_resource_manager sample_headers [sdk_all_ok] fresh)._has_volume = true ∧
    (runs .reme_resource_manager sample_headers [sdk_all_ok] fresh)._v = 12 ∧
    volumeCreates (callsSince fresh
      (runs .reme_resource_manager sample_headers [sdk_all_ok] fresh)) =
        [(.reme_volume_create 11 12, 0)] ∧
    volumeCreates (callsSince (runs .reme_resource_manager sample_headers [sdk_all_ok] fresh)
      (runs .reme_resource_manager sample_headers [sdk_all_ok, sdk_all_ok_again] fresh)) =
        [(.reme_volume_create 21 22, 0)] ∧
    (runs .reme_resource_manager sample_headers [sdk_all_ok, sdk_all_ok_again] fresh)._v = 22 := by
  refine ⟨rfl, rfl, ?_, ?_, rfl⟩
  · simp only [runs, List.foldl, callsSince_run]
    rw [volumeCreates_run]
    rfl
  · simp only [runs, List.foldl, callsSince_run]
    rw [volumeCreates_run]
    rfl

/-- C3 as amended: volume allocation is per run. Every run of either class enters
the compile stage with `_has_volume = false`, whatever the state before the run; it
calls `reme_volume_create` once, on the new context, when all compile steps before
it succeeded, and not at all otherwise; `_v` after the run is the handle that call
left, or the old `_v` when the call was not made. -/
theorem volume_allocated_per_run (k : Class) (hdr : Headers) (sdk : Sdk) (m : Manager) :
    (enter_opencl hdr sdk m)._has_volume = false ∧
    volumeCreates (callsSince m ( _initialize k hdr sdk m)) =
      (if compile_steps_ok hdr sdk then
        [(SdkCall.reme_volume_create sdk.context_create.out sdk.volume_create.out,
          sdk.volume_create.reply.ret)]
      else []) ∧
    ( _initialize k hdr sdk m)._v =
      (if compile_steps_ok hdr sdk then sdk.volume_create.out else m._v) := by
  refine ⟨?_, ?_, ?_⟩
  · simp [enter_opencl, apply_license_eq, enter_license_eq, Manager.perform, Manager.emit]
  · rw [callsSince_run, volumeCreates_run]
  · simp [_initialize_eq]

/-- C9, the code at failing inputs. First input: `reme_options_create` fails in the
compile stage of a manager without volume; `compile_context` returns false and makes
no `reme_volume_create` call, yet `_has_volume` is true after it, and the same holds
for the whole run. Second input: `reme_volume_create` is called and fails;
`_has_volume` is true after the stage all the same. -/
theorem has_volume_true_without_volume :
    fresh._has_volume = false ∧
    (compile_context sample_headers sdk_options_fail fresh).1 = false ∧
    volumeCreates (callsSince fresh (compile_context sample_headers sdk_options_fail fresh).2)
      = [] ∧
    (compile_context sample_headers sdk_options_fail fresh).2._has_volume = true ∧
    volumeCreates (callsSince fresh
      ( _initialize .reme_sdk_initializer sample_headers sdk_options_fail fresh)) = [] ∧
    ( _initialize .reme_sdk_initializer sample_headers sdk_options_fail fresh)._has_volume
      = true ∧
    (compile_context sample_headers sdk_volume_fail fresh).1 = false ∧
    volumeCreates (callsSince fresh (compile_context sample_headers sdk_volume_fail fresh).2)
      = [(.reme_volume_create 0 0, -1)] ∧
    (compile_context sample_headers sdk_volume_fail fresh).2._has_volume = true := by
  refine ⟨rfl, rfl, ?_, rfl, ?_, rfl, rfl, ?_, rfl⟩
  · decide
  · rw [callsSince_run, volumeCreates_run]
    rfl
  · simp only [compile_context_eq, callsSince, Manager.perform, List.drop_left]
    rw [volumeCreates]
    rfl

/-! ## One task at a time -/

theorem _initialize_pool (k : Class) (hdr : Headers) (sdk : Sdk) (m : Manager) :
    ( _initialize k hdr sdk m).pool = m.pool := by
  simp [_initialize_eq, Manager.pool, Manager.perform]

/-- The number of tasks in flight is 1 while `_initializing` is set and 0 otherwise;
every step keeps it so. -/
theorem step_keeps_in_flight (k : Class) (hdr : Headers) (m m' : Manager) (e : Event)
    (h : step k hdr m e = some m')
    (hinv : in_flight m = if m._initializing then 1 else 0) :
    in_flight m' = if m'._initializing then 1 else 0 := by
  cases e with
  | initialize_called =>
    simp only [step, Option.some.injEq] at h
    subst h
    cases hi : m._initializing <;> simp [ Manager.initialize, hi, in_flight] at hinv ⊢ <;>
      omega
  | task_runs sdk =>
    have hp := _initialize_pool k hdr sdk m
    simp only [Manager.pool, Prod.mk.injEq] at hp
    simp only [step] at h
    split_ifs at h with hq
    simp only [Option.some.injEq] at h
    subst h
    simp only [in_flight] at hinv ⊢
    simp only [hp.1]
    rw [← hinv]
    omega
  | task_finished =>
    simp only [step] at h
    split_ifs at h with hq
    simp only [Option.some.injEq] at h
    subst h
    cases hi : m._initializing <;> simp [ finished_initialize, hi, in_flight] at hinv ⊢ <;>
      omega

theorem steps_keep_in_flight (k : Class) (hdr : Headers) (es : List Event) (m m' : Manager)
    (h : steps k hdr m es = some m')
    (hinv : in_flight m = if m._initializing then 1 else 0) :
    in_flight m' = if m'._initializing then 1 else 0 := by
  induction es generalizing m with
  | nil =>
    simp only [steps, Option.some.injEq] at h
    subst h
    exact hinv
  | cons e es ih =>
    simp only [steps] at h
    cases hs : step k hdr m e with
    | none => simp [hs] at h
    | some m₁ =>
      rw [hs] at h
      exact ih m₁ h (step_keeps_in_flight k hdr m m₁ e hs hinv)

/-- C6: for either class, after every sequence of steps from a constructed manager
at most one initialization task is in flight; `initialize()` in a state with
`_initializing = true` returns the state unchanged (no task queued, no signal); in a
state with `_initializing = false` it sets the flag and queues one task; and a step
that queues a task is a call of `initialize()` in a state with `_initializing = false`,
which it sets to true. -/
theorem at_most_one_task_in_flight (k : Class) (hdr : Headers) :
    (∀ (g : Manager) (es : List Event) (m : Manager),
      steps k hdr (construct g) es = some m → in_flight m ≤ 1) ∧
    (∀ m : Manager, m._initializing = true → Manager.initialize m = m) ∧
    (∀ m : Manager, m._initializing = false →
      ( Manager.initialize m)._initializing = true ∧
      ( Manager.initialize m).queued = m.queued + 1) ∧
    (∀ (m m' : Manager) (e : Event), step k hdr m e = some m' → m.queued < m'.queued →
      e = .initialize_called ∧ m._initializing = false ∧ m'._initializing = true ∧
      m'.queued = m.queued + 1) := by
  refine ⟨?_, ?_, ?_, ?_⟩
  · intro g es m h
    have h0 : in_flight (construct g) = if (construct g)._initializing then 1 else 0 := by
      simp [construct, in_flight]
    have := steps_keep_in_flight k hdr es (construct g) m h h0
    rw [this]
    split_ifs <;> omega
  · intro m h
    simp [ Manager.initialize, h]
  · intro m h
    simp [ Manager.initialize, h]
  · intro m m' e h hlt
    cases e with
    | initialize_called =>
      simp only [step, Option.some.injEq] at h
      subst h
      cases hi : m._initializing <;> simp [ Manager.initialize, hi] at hlt ⊢
    | task_runs sdk =>
      simp only [step] at h
      split_ifs at h with hq
      simp only [Option.some.injEq] at h
      subst h
      simp at hlt
      omega
    | task_finished =>
      simp only [step] at h
      split_ifs at h with hq
      simp only [Option.some.injEq] at h
      subst h
      simp [ finished_initialize] at hlt

/-- C6 on a sample sequence of events, which can happen in this order. -/
theorem at_most_one_task_in_flight_witness :
    (steps .reme_resource_manager sample_headers (construct fresh) sample_events).isSome
      = true ∧
    ∀ m, steps .reme_resource_manager sample_headers (construct fresh) sample_events = some m →
      in_flight m ≤ 1 :=
  ⟨rfl, fun m h =>
    (at_most_one_task_in_flight .reme_resource_manager sample_headers).1 fresh sample_events m h⟩

/-! ## The context handle across runs -/

/-- The context calls of successive runs followed by the optional teardown. -/
theorem contextCalls_runs (k : Class) (hdr : Headers) (td : Bool) (r : Out reme_handle_t)
    (sdks : List Sdk) (m : Manager) :
    contextCalls (teardown td r (runs k hdr sdks m)).calls =
      contextCalls m.calls ++ context_trace td r m._c sdks := by
  induction sdks generalizing m with
  | nil =>
    simp only [runs, List.foldl, context_trace, teardown]
    cases td
    · simp
    · by_cases hc : m._c = 0
      · simp [destruct, hc]
      · simp [destruct, hc, sdk_eq, contextCalls_append, contextCalls_cons, contextCalls_nil,
          SdkCall.isContextCall]
  | cons sdk rest ih =>
    have h := ih ( _initialize k hdr sdk m)
    have hc : ( _initialize k hdr sdk m).calls =
        m.calls ++ recorded (run_effects k hdr sdk m._c) := by
      simp [_initialize_eq, Manager.perform]
    have hcc : ( _initialize k hdr sdk m)._c = sdk.context_create.out := by
      simp [_initialize_eq]
    simp only [runs, List.foldl] at h ⊢
    rw [h, hc, hcc, contextCalls_append, contextCalls_run]
    simp [context_trace]

/-- Along the context calls of successive runs at most one handle is live, when the
handle held on entry is the only one that may be live and successful creations
yield non-zero handles. -/
theorem live_context_trace (hdr : Headers) (td : Bool) (r : Out reme_handle_t)
    (sdks : List Sdk) :
    ∀ (c : reme_handle_t) (acc : List reme_handle_t) (p : List (SdkCall × reme_error_t)),
      (∀ sdk ∈ sdks, hdr.REME_SUCCESS sdk.context_create.reply.ret = true →
        sdk.context_create.out ≠ 0) →
      (acc = [] ∨ (acc = [c] ∧ c ≠ 0)) →
      p <+: context_trace td r c sdks →
      (liveContexts hdr acc p).length ≤ 1 := by
  induction sdks with
  | nil =>
    intro c acc p _ hacc hp
    have hlen : acc.length ≤ 1 := by
      rcases hacc with h | ⟨h, _⟩ <;> simp [h]
    simp only [context_trace] at hp
    split_ifs at hp
    · rcases List.prefix_cons_iff.1 hp with h | ⟨t, h, ht⟩
      · subst h
        simpa [liveContexts] using hlen
      · rw [List.prefix_nil] at ht
        subst ht
        subst h
        simp only [liveContexts]
        exact le_trans (List.length_erase_le c acc) hlen
    · rw [List.prefix_nil] at hp
      subst hp
      simpa [liveContexts] using hlen
  | cons sdk rest ih =>
    intro c acc p hnz hacc hp
    have hlen : acc.length ≤ 1 := by
      rcases hacc with h | ⟨h, _⟩ <;> simp [h]
    have hrest : ∀ s ∈ rest, hdr.REME_SUCCESS s.context_create.reply.ret = true →
        s.context_create.out ≠ 0 := fun s hs => hnz s (List.mem_cons_of_mem _ hs)
    have hnew : ∀ t, t <+: context_trace td r sdk.context_create.out rest →
        (liveContexts hdr
          (if hdr.REME_SUCCESS sdk.context_create.reply.ret then [sdk.context_create.out]
           else []) t).length ≤ 1 := by
      intro t ht
      refine ih sdk.context_create.out _ t hrest ?_ ht
      cases hs : hdr.REME_SUCCESS sdk.context_create.reply.ret
      · simp
      · right
        exact ⟨by simp, hnz sdk (List.mem_cons_self _ _) hs⟩
    have hcreate : ∀ q, q <+: (SdkCall.reme_context_create sdk.context_create.out,
          sdk.context_create.reply.ret) :: context_trace td r sdk.context_create.out rest →
        (liveContexts hdr [] q).length ≤ 1 := by
      intro q hq
      rcases List.prefix_cons_iff.1 hq with h | ⟨t, h, ht⟩
      · subst h
        simp [liveContexts]
      · subst h
        simp only [liveContexts]
        exact hnew t ht
    by_cases hc : c = 0
    · have hempty : acc = [] := by
        rcases hacc with h | ⟨_, h⟩
        · exact h
        · exact absurd hc h
      subst hempty
      simp only [context_trace, hc, ne_eq, not_true_eq_false, if_false, List.nil_append] at hp
      exact hcreate p hp
    · have herase : acc.erase c = [] := by
        rcases hacc with h | ⟨h, _⟩ <;> simp [h]
      simp only [context_trace, hc, ne_eq, not_false_eq_true, if_true, List.singleton_append]
        at hp
      rcases List.prefix_cons_iff.1 hp with h | ⟨t, h, ht⟩
      · subst h
        simpa [liveContexts] using hlen
      · subst h
        simp only [liveContexts, herase]
        exact hcreate t ht

/-- When the manager holds a non-zero handle, the context calls of the following
runs up to the next `reme_context_create` contain a destroy of that handle. -/
theorem destroy_before_next_create (td : Bool) (r : Out reme_handle_t) (sdks : List Sdk)
    (c : reme_handle_t) (hc : c ≠ 0) (B C : List (SdkCall × reme_error_t))
    (c₂ : reme_handle_t) (r₂ : reme_error_t)
    (h : context_trace td r c sdks = B ++ (SdkCall.reme_context_create c₂, r₂) :: C) :
    ∃ r', (SdkCall.reme_context_destroy c, r') ∈ B := by
  cases sdks with
  | nil =>
    have hmem : (SdkCall.reme_context_create c₂, r₂) ∈ context_trace td r c [] := by
      rw [h]; simp
    simp only [context_trace] at hmem
    split_ifs at hmem <;> simp at hmem
  | cons sdk rest =>
    simp only [context_trace, hc, ne_eq, not_false_eq_true, if_true, List.singleton_append] at h
    cases B with
    | nil => simp at h
    | cons b B' =>
      simp only [List.cons_append, List.cons.injEq] at h
      exact ⟨sdk.context_destroy.reply.ret, by rw [← h.1]; simp⟩

/-- Between two `reme_context_create` calls of successive runs, the handle the first
one produced is destroyed, unless it is 0. -/
theorem destroy_between_creates (td : Bool) (r : Out reme_handle_t) (sdks : List Sdk) :
    ∀ (c : reme_handle_t) (A B C : List (SdkCall × reme_error_t))
      (c₁ : reme_handle_t) (r₁ : reme_error_t) (c₂ : reme_handle_t) (r₂ : reme_error_t),
      context_trace td r c sdks =
        A ++ (SdkCall.reme_context_create c₁, r₁) ::
          (B ++ (SdkCall.reme_context_create c₂, r₂) :: C) →
      c₁ ≠ 0 → ∃ r', (SdkCall.reme_context_destroy c₁, r') ∈ B := by
  induction sdks with
  | nil =>
    intro c A B C c₁ r₁ c₂ r₂ h _
    have hmem : (SdkCall.reme_context_create c₁, r₁) ∈ context_trace td r c [] := by
      rw [h]; simp
    simp only [context_trace] at hmem
    split_ifs at hmem <;> simp at hmem
  | cons sdk rest ih =>
    intro c A B C c₁ r₁ c₂ r₂ h h₁
    have key : ∀ A' : List (SdkCall × reme_error_t),
        (SdkCall.reme_context_create sdk.context_create.out, sdk.context_create.reply.ret) ::
          context_trace td r sdk.context_create.out rest =
        A' ++ (SdkCall.reme_context_create c₁, r₁) ::
          (B ++ (SdkCall.reme_context_create c₂, r₂) :: C) →
        ∃ r', (SdkCall.reme_context_destroy c₁, r') ∈ B := by
      intro A' h'
      cases A' with
      | nil =>
        simp only [List.nil_append, List.cons.injEq, Prod.mk.injEq,
          SdkCall.reme_context_create.injEq] at h'
        obtain ⟨⟨hc₁, _⟩, hT⟩ := h'
        subst hc₁
        exact destroy_before_next_create td r rest _ h₁ B C c₂ r₂ hT
      | cons a A'' =>
        simp only [List.cons_append, List.cons.injEq] at h'
        exact ih _ A'' B C c₁ r₁ c₂ r₂ h'.2 h₁
    by_cases hc : c = 0
    · simp only [context_trace, hc, ne_eq, not_true_eq_false, if_false, List.nil_append] at h
      exact key A h
    · simp only [context_trace, hc, ne_eq, not_false_eq_true, if_true, List.singleton_append]
        at h
      cases A with
      | nil => simp at h
      | cons a A' =>
        simp only [List.cons_append, List.cons.injEq] at h
        exact key A' h.2

/-- C7: for either class, (1) the context calls of a run are: `reme_context_destroy`
on the handle held on entry, when it is non-zero, then `reme_context_create`; a run
entered with handle 0, in particular the first run after construction, only creates.
For every sequence of runs on a constructed manager followed by an optional
teardown, over the list of context calls: (2) after every prefix at most one
created and not yet destroyed handle is live, provided every successful
`reme_context_create` yields a non-zero handle; (3) between two
`reme_context_create` calls the handle left by the earlier one, when non-zero, is
destroyed. -/
theorem context_destroyed_before_created (k : Class) (hdr : Headers) (sdks : List Sdk)
    (td : Bool) (r : Out reme_handle_t) (g : Manager)
    (hnz : ∀ sdk ∈ sdks, hdr.REME_SUCCESS sdk.context_create.reply.ret = true →
      sdk.context_create.out ≠ 0) :
    (∀ (sdk : Sdk) (m : Manager),
      contextCalls (callsSince m ( _initialize k hdr sdk m)) =
        (if m._c ≠ 0 then
          [(SdkCall.reme_context_destroy m._c, sdk.context_destroy.reply.ret)] else []) ++
        [(SdkCall.reme_context_create sdk.context_create.out,
          sdk.context_create.reply.ret)]) ∧
    (∀ sdk : Sdk,
      contextCalls (callsSince (construct g) ( _initialize k hdr sdk (construct g))) =
        [(SdkCall.reme_context_create sdk.context_create.out,
          sdk.context_create.reply.ret)]) ∧
    (∀ p, p <+: contextCalls (teardown td r (runs k hdr sdks (construct g))).calls →
      (liveContexts hdr [] p).length ≤ 1) ∧
    (∀ (A B C : List (SdkCall × reme_error_t)) (c₁ : reme_handle_t) (r₁ : reme_error_t)
        (c₂ : reme_handle_t) (r₂ : reme_error_t),
      contextCalls (teardown td r (runs k hdr sdks (construct g))).calls =
        A ++ (SdkCall.reme_context_create c₁, r₁) ::
          (B ++ (SdkCall.reme_context_create c₂, r₂) :: C) →
      c₁ ≠ 0 → ∃ r', (SdkCall.reme_context_destroy c₁, r') ∈ B) := by
  have htrace : contextCalls (teardown td r (runs k hdr sdks (construct g))).calls =
      context_trace td r 0 sdks := by
    rw [contextCalls_runs]
    simp [construct, contextCalls_nil]
  refine ⟨?_, ?_, ?_, ?_⟩
  · intro sdk m
    rw [callsSince_run, contextCalls_run]
  · intro sdk
    rw [callsSince_run, contextCalls_run]
    simp [construct]
  · intro p hp
    rw [htrace] at hp
    exact live_context_trace hdr td r sdks 0 [] p hnz (Or.inl rfl) hp
  · intro A B C c₁ r₁ c₂ r₂ h h₁
    rw [htrace] at h
    exact destroy_between_creates td r sdks 0 A B C c₁ r₁ c₂ r₂ h h₁

/-- C7 on two sample runs followed by teardown: the SDK hands out the non-zero
handles 11 and 21, the context calls are create 11, destroy 11, create 21,
destroy 21, and after them no handle is live. -/
theorem context_destroyed_before_created_witness :
    (∀ sdk ∈ [sdk_all_ok, sdk_all_ok_again],
      sample_headers.REME_SUCCESS sdk.context_create.reply.ret = true →
        sdk.context_create.out ≠ 0) ∧
    contextCalls (teardown true ⟨reply_ok, 0⟩ (runs .reme_resource_manager sample_headers
        [sdk_all_ok, sdk_all_ok_again] (construct fresh))).calls =
      [(.reme_context_create 11, 0), (.reme_context_destroy 11, 0),
       (.reme_context_create 21, 0), (.reme_context_destroy 21, 0)] ∧
    (liveContexts sample_headers [] (contextCalls (teardown true ⟨reply_ok, 0⟩
      (runs .reme_resource_manager sample_headers [sdk_all_ok, sdk_all_ok_again]
        (construct fresh))).calls)).length ≤ 1 := by
  have hnz : ∀ sdk ∈ [sdk_all_ok, sdk_all_ok_again],
      sample_headers.REME_SUCCESS sdk.context_create.reply.ret = true →
        sdk.context_create.out ≠ 0 := by
    intro sdk hs _
    simp only [List.mem_cons, List.mem_singleton, List.not_mem_nil, or_false] at hs
    rcases hs with h | h <;> subst h <;> decide
  refine ⟨hnz, ?_, ?_⟩
  · rw [contextCalls_runs]
    rfl
  · exact (context_destroyed_before_created .reme_resource_manager sample_headers
      [sdk_all_ok, sdk_all_ok_again] true ⟨reply_ok, 0⟩ fresh hnz).2.2.1 _ List.prefix_rfl

end ReconstructMeGUI
